import Mathlib

/-!
A verification development for the equilibration-based initial-state computation
(`opm/core/simulator/initStateEquil.hpp`) and the incompressible two-phase PVT
property reader (`opm/core/props/pvt/PvtPropertiesIncompFromDeck.cpp`).

Doubles are modelled as rationals (`ℚ`); C++ exceptions are modelled with
`Except String`; C++ `std::vector` becomes `List`, with `List.getD`/`List.set`
for the unchecked element accesses of the source (an out-of-bounds C++ access
has no defined value; `getD`'s default stands in for it, and every concrete
claim input stays in bounds).
-/

namespace OpmEquil

/-- One `{ depth, press }` pair of an EQUIL record (`EquilRecord` sub-struct). -/
structure RecordPair where
  depth : ℚ
  press : ℚ
deriving DecidableEq, Repr

/-- `EquilRecord` from `EquilibrationHelpers.hpp` as populated by `getEquil`:
datum (`main`), water-oil contact (`woc`), gas-oil contact (`goc`),
the two 1-based table indices and the accuracy-target item `N`. -/
structure EquilRecord where
  main : RecordPair
  woc  : RecordPair
  goc  : RecordPair
  live_oil_table_index : Int
  wet_gas_table_index  : Int
  N : Int
deriving DecidableEq, Repr

/-- An RSVD / RVVD table: a depth column and a ratio column
(`RsvdTable::getDepthColumn/getRsColumn`, `RvvdTable` analogously). -/
structure RsvdTable where
  depthColumn : List ℚ
  ratioColumn : List ℚ
deriving DecidableEq, Repr

/-- The parts of the input deck that `initStateEquil.hpp` consults:
keyword presence flags and the raw EQUIL records behind `EquilWrapper`. -/
structure Deck where
  hasEQUIL : Bool
  equilRecords : List EquilRecord
  hasDISGAS : Bool
  hasVAPOIL : Bool
  hasEQLNUM : Bool
  hasSWATINIT : Bool
deriving Repr

/-- The parts of `EclipseState` that `initStateEquil.hpp` consults. -/
structure EclipseState where
  eqlnumData : List Int
  rsvdTables : List RsvdTable
  rvvdTables : List RsvdTable
  swatInitData : List ℚ
deriving Repr

/-- The fields of `UnstructuredGrid` used here: cell count, the
`global_cell` map (`NULL` modelled as `none`) and cell centroids
(depth of cell `c` is `cell_centroids[3*c + 2]`). -/
structure UnstructuredGrid where
  number_of_cells : Nat
  global_cell : Option (List Nat)
  cell_centroids : List ℚ
deriving Repr

/-- `DeckDependent::getEquil` (initStateEquil.hpp:187-231): with no EQUIL
keyword it throws "Deck does not provide equilibration data."; otherwise it
walks the records in order, throwing `kw EQUIL, item 9: Only N=0 supported.`
at the first record whose item N is non-zero, and returns the record list. -/
def getEquilRecords : List EquilRecord → Except String (List EquilRecord)
  | [] => .ok []
  | r :: rs =>
    if r.N ≠ 0 then
      .error "kw EQUIL, item 9: Only N=0 supported."
    else do
      let rest ← getEquilRecords rs
      .ok (r :: rest)

/-- `DeckDependent::getEquil`, outer keyword check. -/
def getEquil (deck : Deck) : Except String (List EquilRecord) :=
  if deck.hasEQUIL then
    getEquilRecords deck.equilRecords
  else
    .error "Deck does not provide equilibration data."

/-- `DeckDependent::equilnum` (initStateEquil.hpp:233-257): with EQLNUM
present, cell `c` gets `e[deck_pos] - 1` where `deck_pos` is
`global_cell[c]` (or `c` itself when `global_cell` is NULL); otherwise all
cells get region 0. -/
def equilnum (deck : Deck) (es : EclipseState) (G : UnstructuredGrid) : List Int :=
  if deck.hasEQLNUM then
    (List.range G.number_of_cells).map (fun cell =>
      let deck_pos : Nat :=
        match G.global_cell with
        | none => cell
        | some gc => gc.getD cell 0
      es.eqlnumData.getD deck_pos 0 - 1)
  else
    List.replicate G.number_of_cells 0

/-- The cells of region `r` in ascending cell order: `RegionMapping<>`
built from the `equilnum` vector preserves grid cell order inside a region
and bins cells by their region id. -/
def regionCells (eqln : List Int) (r : Int) : List Nat :=
  (List.range eqln.length).filter (fun c => eqln.getD c 0 = r)

/-- Number of regions of the mapping: region ids densely fill
`[0, numRegions)`, so this is one more than the largest id (0 for no cells). -/
def numRegions (eqln : List Int) : Nat :=
  eqln.foldl (fun m v => max m (v.toNat + 1)) 0

/-- The per-region miscibility strategies of `EquilibrationHelpers.hpp`, as the
orchestrator stores them (`Miscibility::RsFunction` subclasses): each carries its
construction data exactly as passed at the construction sites in
`initStateEquil.hpp` (representative cell, table columns, contact pressure and
temperature). -/
inductive RsFunction where
  | NoMixing : RsFunction
  | RsVD (cell : Nat) (depthCol ratioCol : List ℚ) : RsFunction
  | RvVD (cell : Nat) (depthCol ratioCol : List ℚ) : RsFunction
  | RsSatAtContact (cell : Nat) (pContact TContact : ℚ) : RsFunction
  | RvSatAtContact (cell : Nat) (pContact TContact : ℚ) : RsFunction
deriving DecidableEq, Repr

/-- `*(eqlmap.cells(i).begin())`: the first cell of region `i` (the source
dereferences `begin()` unconditionally; the default 0 stands in for the empty
region, which the source never handles). -/
def firstCellOfRegion (eqln : List Int) (r : Int) : Nat :=
  (regionCells eqln r).headD 0

/-- The DISGAS loop of the `InitialStateComputer` constructor
(initStateEquil.hpp:282-311), region counter `i` running over the records:
positive `live_oil_table_index` selects an `RsVD` built — as in the source —
from `rsvdTables[i]`, the REGION index, after checking availability against the
record's table index; a missing table is a fatal error; a non-positive index
selects `RsSatAtContact` anchored at the datum pressure and 273.15+20 K,
provided datum depth equals the gas-oil-contact depth. -/
def mkRsFuncsGo (tables : List RsvdTable) (eqln : List Int) :
    List EquilRecord → Nat → Except String (List RsFunction)
  | [], _ => .ok []
  | rec :: rest, i =>
    if 0 < rec.live_oil_table_index then
      if 0 < tables.length ∧ rec.live_oil_table_index.toNat ≤ tables.length then
        (mkRsFuncsGo tables eqln rest (i + 1)).map
          (fun fs => RsFunction.RsVD (firstCellOfRegion eqln (Int.ofNat i))
            (tables.getD i (RsvdTable.mk [] [])).depthColumn
            (tables.getD i (RsvdTable.mk [] [])).ratioColumn :: fs)
      else
        .error ("Cannot initialise: RSVD table " ++
          toString rec.live_oil_table_index ++ " not available.")
    else
      if rec.goc.depth ≠ rec.main.depth then
        .error ("Cannot initialise: when no explicit RSVD table is given, " ++
          "datum depth must be at the gas-oil-contact. In EQUIL region " ++
          toString (i + 1) ++ "  (counting from 1), this does not hold.")
      else
        (mkRsFuncsGo tables eqln rest (i + 1)).map
          (fun fs => RsFunction.RsSatAtContact (firstCellOfRegion eqln (Int.ofNat i))
            rec.main.press (273.15 + 20) :: fs)

/-- The `rs_func_` construction: without DISGAS every region gets `NoMixing`
(initStateEquil.hpp:307-311). -/
def mkRsFuncs (deck : Deck) (es : EclipseState) (eqln : List Int)
    (recs : List EquilRecord) : Except String (List RsFunction) :=
  if deck.hasDISGAS then mkRsFuncsGo es.rsvdTables eqln recs 0
  else .ok (recs.map fun _ => RsFunction.NoMixing)

/-- The VAPOIL loop (initStateEquil.hpp:313-343), symmetric to the DISGAS one:
`rvvdTables[i]` again indexed by the region counter, contact pressure
`rec.main.press + rec.goc.press` for the saturated-at-contact branch. -/
def mkRvFuncsGo (tables : List RsvdTable) (eqln : List Int) :
    List EquilRecord → Nat → Except String (List RsFunction)
  | [], _ => .ok []
  | rec :: rest, i =>
    if 0 < rec.wet_gas_table_index then
      if 0 < tables.length ∧ rec.wet_gas_table_index.toNat ≤ tables.length then
        (mkRvFuncsGo tables eqln rest (i + 1)).map
          (fun fs => RsFunction.RvVD (firstCellOfRegion eqln (Int.ofNat i))
            (tables.getD i (RsvdTable.mk [] [])).depthColumn
            (tables.getD i (RsvdTable.mk [] [])).ratioColumn :: fs)
      else
        .error ("Cannot initialise: RVVD table " ++
          toString rec.wet_gas_table_index ++ " not available.")
    else
      if rec.goc.depth ≠ rec.main.depth then
        .error ("Cannot initialise: when no explicit RVVD table is given, " ++
          "datum depth must be at the gas-oil-contact. In EQUIL region " ++
          toString (i + 1) ++ "  (counting from 1), this does not hold.")
      else
        (mkRvFuncsGo tables eqln rest (i + 1)).map
          (fun fs => RsFunction.RvSatAtContact (firstCellOfRegion eqln (Int.ofNat i))
            (rec.main.press + rec.goc.press) (273.15 + 20) :: fs)

/-- The `rv_func_` construction: without VAPOIL every region gets `NoMixing`
(initStateEquil.hpp:339-343). -/
def mkRvFuncs (deck : Deck) (es : EclipseState) (eqln : List Int)
    (recs : List EquilRecord) : Except String (List RsFunction) :=
  if deck.hasVAPOIL then mkRvFuncsGo es.rvvdTables eqln recs 0
  else .ok (recs.map fun _ => RsFunction.NoMixing)

/-- Piecewise-linear interpolation in a monotone `(depth, ratio)` table with
constant extrapolation beyond the table ends (the monotone depth-table
evaluation of spec §4.3). -/
def linearInterp : List ℚ → List ℚ → ℚ → ℚ
  | [], _, _ => 0
  | [_], ys, _ => ys.headD 0
  | x0 :: x1 :: xs, ys, x =>
    if x ≤ x0 then ys.headD 0
    else if x ≤ x1 then
      if x1 = x0 then ys.getD 0 0
      else ys.getD 0 0 + (ys.getD 1 0 - ys.getD 0 0) * (x - x0) / (x1 - x0)
    else linearInterp (x1 :: xs) (ys.tail) x

/-- Modelled from the spec: the `operator()(depth, press, temp, sat_other)` of
the miscibility strategies (`EquilibrationHelpers.hpp`, which is absent from
src/).  Per spec §4.3, `NoMixing` is identically zero everywhere; per
§4.3/§4.6, the table and saturated-at-contact variants return the saturated
PVT ratio at the cell's own pressure and temperature whenever the
complementary phase's saturation is strictly positive, and otherwise the
depth table's interpolated value resp. the ratio saturated at the fixed
contact pressure and reference temperature.  `satRs`/`satRv` are the external
PVT evaluator's saturated-ratio accessors (an out-of-scope collaborator). -/
def evalRsFunction (satRs satRv : ℚ → ℚ → ℚ) :
    RsFunction → ℚ → ℚ → ℚ → ℚ → ℚ
  | .NoMixing, _, _, _, _ => 0
  | .RsVD _ dcol rcol, depth, press, temp, satOther =>
    if 0 < satOther then satRs press temp else linearInterp dcol rcol depth
  | .RvVD _ dcol rcol, depth, press, temp, satOther =>
    if 0 < satOther then satRv press temp else linearInterp dcol rcol depth
  | .RsSatAtContact _ pc tc, _, press, temp, satOther =>
    if 0 < satOther then satRs press temp else satRs pc tc
  | .RvSatAtContact _ pc tc, _, press, temp, satOther =>
    if 0 < satOther then satRv press temp else satRv pc tc

/-- The slice of `BlackoilPropertiesInterface::phaseUsage()` consulted here:
used-flags and in-array positions of the Aqua/Liquid/Vapour phases
(`BlackoilPhases`). -/
structure PhaseUsage where
  aqua_used : Bool
  liquid_used : Bool
  vapour_used : Bool
  aqua_pos : Nat
  liquid_pos : Nat
  vapour_pos : Nat
deriving DecidableEq, Repr

/-- The slice of `BlackoilPropertiesInterface` the orchestrator reads:
`numPhases()`, `phaseUsage()`, and the saturated-ratio accessors used in the
miscibility evaluation. -/
structure Props where
  numPhases : Nat
  phaseUsage : PhaseUsage
  satRs : ℚ → ℚ → ℚ
  satRv : ℚ → ℚ → ℚ

/-- The two heavy per-region algorithms `phasePressures` and
`phaseSaturations`, whose implementations live in `initStateEquil_impl.hpp`
(absent from src/): taken as function parameters, given the region id, its
cell range, (for saturations) the SWATINIT vector and the computed pressures;
the equilibration-region object, props and gravity are captured. -/
structure ExternalFns where
  phasePressures : Nat → List Nat → List (List ℚ)
  phaseSaturations : Nat → List Nat → List ℚ → List (List ℚ) → List (List ℚ)

/-- Modelled from the spec: `computeRs` (implementation in
`initStateEquil_impl.hpp`, absent from src/; declared at
initStateEquil.hpp:178-184): one ratio per cell of the range — the region's
miscibility function evaluated at the cell's depth (`cell_centroids[3c+2]`),
the cell's oil (resp. gas) pressure, the temperature and the complementary
phase's saturation. -/
def computeRs (satRs satRv : ℚ → ℚ → ℚ) (G : UnstructuredGrid)
    (cells : List Nat) (press temp : List ℚ) (f : RsFunction)
    (satOther : List ℚ) : List ℚ :=
  (List.range cells.length).map fun k =>
    evalRsFunction satRs satRv f
      (G.cell_centroids.getD (3 * cells.getD k 0 + 2) 0)
      (press.getD k 0) (temp.getD k 0) (satOther.getD k 0)

/-- `copyFromRegion` (initStateEquil.hpp:427-438): walk the region's cell list
and the per-region source vector in lockstep, writing `destination[*c] = *s`. -/
def copyFromRegion (source : List ℚ) (cells : List Nat)
    (destination : List ℚ) : List ℚ :=
  (cells.zip source).foldl (fun d cs => d.set cs.1 cs.2) destination

/-- The per-phase scatter loop `for p < np: copyFromRegion(v[p], cells, X_[p])`
(initStateEquil.hpp:411-414). -/
def scatterPhases (np : Nat) (src : List (List ℚ)) (cells : List Nat)
    (dest : List (List ℚ)) : List (List ℚ) :=
  (List.range np).foldl
    (fun d p => d.set p (copyFromRegion (src.getD p []) cells (d.getD p []))) dest

/-- The four output members of `InitialStateComputer`: per-phase pressures
`pp_`, per-phase saturations `sat_`, and the `rs_`/`rv_` vectors. -/
structure ComputerState where
  pp  : List (List ℚ)
  sat : List (List ℚ)
  rs  : List ℚ
  rv  : List ℚ
deriving Repr

/-- One iteration of the region loop of `calcPressSatRsRv`
(initStateEquil.hpp:393-424): compute pressures, temperature (the fixed
273.15+20 K of the spec — `temperature()`'s implementation is also in the
absent `initStateEquil_impl.hpp`) and saturations for the region, scatter the
per-phase vectors, and — only when both the Liquid and the Vapour phase are
used — compute and scatter Rs (from oil pressure and gas saturation) and Rv
(from gas pressure and oil saturation). -/
def calcRegion (props : Props) (ext : ExternalFns) (G : UnstructuredGrid)
    (swat : List ℚ) (rsf rvf : RsFunction) (r : Nat) (eqln : List Int)
    (st : ComputerState) : ComputerState :=
  let cells := regionCells eqln (Int.ofNat r)
  let press := ext.phasePressures r cells
  let temp := List.replicate cells.length (273.15 + 20 : ℚ)
  let sat := ext.phaseSaturations r cells swat press
  let pp' := scatterPhases props.numPhases press cells st.pp
  let sat' := scatterPhases props.numPhases sat cells st.sat
  if props.phaseUsage.liquid_used && props.phaseUsage.vapour_used then
    let oilpos := props.phaseUsage.liquid_pos
    let gaspos := props.phaseUsage.vapour_pos
    let rsv := computeRs props.satRs props.satRv G cells
      (press.getD oilpos []) temp rsf (sat.getD gaspos [])
    let rvv := computeRs props.satRs props.satRv G cells
      (press.getD gaspos []) temp rvf (sat.getD oilpos [])
    ⟨pp', sat', copyFromRegion rsv cells st.rs, copyFromRegion rvv cells st.rv⟩
  else
    ⟨pp', sat', st.rs, st.rv⟩

/-- `calcPressSatRsRv` (initStateEquil.hpp:385-425): fold `calcRegion` over
the regions in ascending id order, starting from the member-initializer
state.  `rec[r]`, `rs_func_[r]`, `rv_func_[r]` are read per region (the
source indexes them unchecked; `getD`'s defaults stand in for the
out-of-range case the source never handles). -/
def calcPressSatRsRv (props : Props) (ext : ExternalFns) (G : UnstructuredGrid)
    (swat : List ℚ) (rsfs rvfs : List RsFunction) (eqln : List Int)
    (st0 : ComputerState) : ComputerState :=
  (List.range (numRegions eqln)).foldl
    (fun st r => calcRegion props ext G swat (rsfs.getD r .NoMixing)
      (rvfs.getD r .NoMixing) r eqln st) st0

/-- The pressure/saturation part of the region loop on its own — for each
region, compute the per-region pressures and saturations and scatter them into
the global per-phase arrays (spec §4.7).  Comparison definition for the frame
claim about the Rs/Rv arrays. -/
def pressSatScatter (props : Props) (ext : ExternalFns) (swat : List ℚ)
    (eqln : List Int) (pp0 sat0 : List (List ℚ)) :
    List (List ℚ) × List (List ℚ) :=
  (List.range (numRegions eqln)).foldl
    (fun ps r =>
      (scatterPhases props.numPhases
        (ext.phasePressures r (regionCells eqln (Int.ofNat r)))
        (regionCells eqln (Int.ofNat r)) ps.1,
       scatterPhases props.numPhases
        (ext.phaseSaturations r (regionCells eqln (Int.ofNat r)) swat
          (ext.phasePressures r (regionCells eqln (Int.ofNat r))))
        (regionCells eqln (Int.ofNat r)) ps.2))
    (pp0, sat0)

/-- The member-initializer state of `InitialStateComputer`
(initStateEquil.hpp:267-272): all four output arrays zero-filled. -/
def initialState0 (np n : Nat) : ComputerState :=
  ⟨List.replicate np (List.replicate n 0), List.replicate np (List.replicate n 0),
   List.replicate n 0, List.replicate n 0⟩

/-- The SWATINIT gather (initStateEquil.hpp:347-355): per-cell values through
`global_cell`, or the empty vector when the keyword is absent. -/
def swatInitVec (deck : Deck) (es : EclipseState) (G : UnstructuredGrid) : List ℚ :=
  if deck.hasSWATINIT then
    (List.range G.number_of_cells).map fun c =>
      es.swatInitData.getD
        (match G.global_cell with
         | none => c
         | some gc => gc.getD c 0) 0
  else []

/-- The `InitialStateComputer` constructor body (initStateEquil.hpp:260-362):
`getEquil`, the region mapping, the two miscibility-function vectors (each
step may throw), the SWATINIT gather, then `calcPressSatRsRv` on the
zero-initialized arrays.  An `Except.error` result models the C++ exception
escaping the constructor: no state object is produced, and nothing has been
computed into the output arrays. -/
def initialStateComputer (props : Props) (ext : ExternalFns) (deck : Deck)
    (es : EclipseState) (G : UnstructuredGrid) : Except String ComputerState := do
  let recs ← getEquil deck
  let eqln := equilnum deck es G
  let rsfs ← mkRsFuncs deck es eqln recs
  let rvfs ← mkRvFuncs deck es eqln recs
  .ok (calcPressSatRsRv props ext G (swatInitVec deck es G) rsfs rvfs eqln
    (initialState0 props.numPhases G.number_of_cells))

/-- Modelled from the spec: one cell of `phaseSaturations`
(implementation in `initStateEquil_impl.hpp`, absent from src/; declared at
initStateEquil.hpp:150-156).  A capillary-pressure curve of the external
property evaluator, as the saturation solver of spec §4.5 uses it: a
tabulated saturation domain `[sMin, sMax]` and the inverse of the monotone
Pc relation. -/
structure PcCurve where
  sMin : ℚ
  sMax : ℚ
  invert : ℚ → ℚ

/-- Clamping to the tabulated saturation domain (spec §4.5: saturations
outside the tabulated capillary-pressure range are pinned to the nearest
domain boundary). -/
def clampSat (t : PcCurve) (s : ℚ) : ℚ := max t.sMin (min t.sMax s)

/-- Modelled from the spec (§4.5): water saturation from `Pc_wo = p_oil −
p_water` by table inversion, clamped to the domain. -/
def waterSatFromPc (t : PcCurve) (po pw : ℚ) : ℚ := clampSat t (t.invert (po - pw))

/-- Modelled from the spec (§4.5): gas saturation from `Pc_go = p_gas −
p_oil` by table inversion, clamped to the domain. -/
def gasSatFromPc (t : PcCurve) (pg po : ℚ) : ℚ := clampSat t (t.invert (pg - po))

/-- Modelled from the spec (§4.5): the saturation triple of one cell —
`(Sw, So, Sg)` with the oil saturation the complement `1 − Sw − Sg`, not
independently computed. -/
def phaseSaturationsCell (wt gt : PcCurve) (pw po pg : ℚ) : ℚ × ℚ × ℚ :=
  let sw := waterSatFromPc wt po pw
  let sg := gasSatFromPc gt pg po
  (sw, 1 - sw - sg, sg)

/-- The DENSITY keyword record read by `PvtPropertiesIncompFromDeck::init`:
items OIL, WATER, GAS (SI values). -/
structure DensityRecord where
  oil : ℚ
  water : ℚ
  gas : ℚ
deriving DecidableEq, Repr

/-- The PVTW keyword record: compressibility, viscosibility, volume factor
and viscosity of water (SI values). -/
structure PvtwRecord where
  water_compressibility : ℚ
  water_viscosibility : ℚ
  water_vol_factor : ℚ
  water_viscosity : ℚ
deriving DecidableEq, Repr

/-- The PVCDO keyword record: compressibility, viscosibility, volume factor
and viscosity of oil (SI values). -/
structure PvcdoRecord where
  oil_compressibility : ℚ
  oil_viscosibility : ℚ
  oil_vol_factor : ℚ
  oil_viscosity : ℚ
deriving DecidableEq, Repr

/-- The deck slice `PvtPropertiesIncompFromDeck::init` consults: the phase
usage derived by the external `phaseUsageFromDeck`, and the first record of
each of DENSITY, PVTW, PVCDO (`none` = keyword missing). -/
structure PvtDeck where
  phaseUsage : PhaseUsage
  density : Option DensityRecord
  pvtw : Option PvtwRecord
  pvcdo : Option PvcdoRecord
deriving DecidableEq, Repr

/-- The members assigned by `PvtPropertiesIncompFromDeck::init`: the two-slot
surface-density, reservoir-density and viscosity arrays. -/
structure PvtState where
  surface_density : List ℚ
  reservoir_density : List ℚ
  viscosity : List ℚ
deriving DecidableEq, Repr

/-- `PvtPropertiesIncompFromDeck::init` (PvtPropertiesIncompFromDeck.cpp:36-89):
reject any phase usage other than water+oil; read DENSITY with the OIL item
into the Aqua slot and the WATER item into the Liquid slot; start reservoir
densities equal to surface densities; divide the Aqua slot by PVTW's volume
factor and the Liquid slot by PVCDO's, filling the viscosities alongside.
The two-entry arrays start from a `[0, 0]` placeholder standing for the
uninitialised C++ members; an `Except.error` models the exception leaving
every member unassigned. -/
def pvtInit (deck : PvtDeck) : Except String PvtState :=
  let pu := deck.phaseUsage
  if pu.vapour_used || !pu.aqua_used || !pu.liquid_used then
    .error "PvtPropertiesIncompFromDeck::init() -- must have gas and oil phases (only) in deck input.\n"
  else
    match deck.density with
    | none => .error "Input is missing DENSITY\n"
    | some dr =>
      let sd := ([(0 : ℚ), 0].set pu.aqua_pos dr.oil).set pu.liquid_pos dr.water
      match deck.pvtw with
      | none => .error "Input is missing PVTW\n"
      | some w =>
        let rd1 := sd.set pu.aqua_pos (sd.getD pu.aqua_pos 0 / w.water_vol_factor)
        let v1 := [(0 : ℚ), 0].set pu.aqua_pos w.water_viscosity
        match deck.pvcdo with
        | none => .error "Input is missing PVCDO\n"
        | some o =>
          let rd2 := rd1.set pu.liquid_pos (rd1.getD pu.liquid_pos 0 / o.oil_vol_factor)
          let v2 := v1.set pu.liquid_pos o.oil_viscosity
          .ok ⟨sd, rd2, v2⟩

/-- `PvtPropertiesIncompFromDeck::numPhases`
(PvtPropertiesIncompFromDeck.cpp:109-112): always 2. -/
def pvtNumPhases : Nat := 2

end OpmEquil

namespace OpmEquil

/-- Membership in `regionCells` is exactly "in range and mapped to `r`". -/
theorem mem_regionCells {eqln : List Int} {r : Int} {c : Nat} :
    c ∈ regionCells eqln r ↔ c < eqln.length ∧ eqln.getD c 0 = r := by
  simp [regionCells, List.mem_filter, List.mem_range]

/-- C5: For every cell, the region id assigned is the external per-cell integer
property value (looked up through the grid's global-cell mapping, or the cell
index itself when that mapping is absent) decremented by one; when no explicit
per-cell region property is supplied, every cell is assigned region 0. -/
theorem equilnum_spec (deck : Deck) (es : EclipseState) (G : UnstructuredGrid)
    (c : Nat) (hc : c < G.number_of_cells) :
    (deck.hasEQLNUM = true →
      (equilnum deck es G).getD c 0 =
        es.eqlnumData.getD
          (match G.global_cell with
           | none => c
           | some gc => gc.getD c 0) 0 - 1)
    ∧ (deck.hasEQLNUM = false → (equilnum deck es G).getD c 0 = 0) := by
  constructor
  · intro h
    simp only [equilnum, h, if_pos]
    rw [List.getD_eq_getElem?_getD, List.getElem?_map, List.getElem?_range hc]
    rfl
  · intro h
    simp only [equilnum, h, Bool.false_eq_true, if_false,
      List.getD_eq_getElem?_getD, List.getElem?_replicate]
    split <;> rfl

/-- `getEquil`'s record walk throws the accuracy-target error as soon as some
record has a non-zero item N. -/
theorem getEquilRecords_error {l : List EquilRecord}
    (h : ∃ rec ∈ l, rec.N ≠ 0) :
    getEquilRecords l = .error "kw EQUIL, item 9: Only N=0 supported." := by
  induction l with
  | nil => simp at h
  | cons r rs ih =>
    obtain ⟨rec, hmem, hN⟩ := h
    rw [List.mem_cons] at hmem
    by_cases hr : r.N ≠ 0
    · simp [getEquilRecords, hr]
    · have hmem' : rec ∈ rs := by
        rcases hmem with he | h'
        · exact absurd (he ▸ hN) hr
        · exact h'
      have herr := ih ⟨rec, hmem', hN⟩
      simp only [getEquilRecords, if_neg hr, herr]
      rfl

/-- C2: For every equilibration record, if its accuracy target (item N) is
non-zero, initialization fails with an unsupported-configuration error before
any pressure, saturation, Rs or Rv value has been computed into the output
state arrays (the `Except.error` result carries no state: `getEquil` throws
before `calcPressSatRsRv` runs); only accuracy target 0 is accepted. -/
theorem nonzero_accuracy_target_aborts (props : Props) (ext : ExternalFns)
    (deck : Deck) (es : EclipseState) (G : UnstructuredGrid)
    (hq : deck.hasEQUIL = true)
    (h : ∃ rec ∈ deck.equilRecords, rec.N ≠ 0) :
    initialStateComputer props ext deck es G =
      .error "kw EQUIL, item 9: Only N=0 supported." := by
  have herr : getEquil deck = .error "kw EQUIL, item 9: Only N=0 supported." := by
    rw [getEquil, if_pos hq]
    exact getEquilRecords_error h
  simp only [initialStateComputer, herr]
  rfl

/-- Witness for `nonzero_accuracy_target_aborts`: accuracy target 5. -/
theorem nonzero_accuracy_target_aborts_witness :
    initialStateComputer
      (Props.mk 2 (PhaseUsage.mk true true false 0 1 2) (fun _ _ => 0) (fun _ _ => 0))
      (ExternalFns.mk (fun _ _ => []) (fun _ _ _ _ => []))
      (Deck.mk true [EquilRecord.mk ⟨0, 0⟩ ⟨0, 0⟩ ⟨0, 0⟩ 0 0 5] false false false false)
      (EclipseState.mk [] [] [] []) (UnstructuredGrid.mk 1 none [0, 0, 0]) =
      .error "kw EQUIL, item 9: Only N=0 supported." :=
  nonzero_accuracy_target_aborts
    (Props.mk 2 (PhaseUsage.mk true true false 0 1 2) (fun _ _ => 0) (fun _ _ => 0))
    (ExternalFns.mk (fun _ _ => []) (fun _ _ _ _ => []))
    (Deck.mk true [EquilRecord.mk ⟨0, 0⟩ ⟨0, 0⟩ ⟨0, 0⟩ 0 0 5] false false false false)
    (EclipseState.mk [] [] [] []) (UnstructuredGrid.mk 1 none [0, 0, 0])
    rfl ⟨EquilRecord.mk ⟨0, 0⟩ ⟨0, 0⟩ ⟨0, 0⟩ 0 0 5, by decide⟩

/-- Writing at one list position leaves every other position unchanged. -/
theorem getD_set_ne (l : List ℚ) (i j : Nat) (a : ℚ) (h : i ≠ j) :
    (l.set i a).getD j 0 = l.getD j 0 := by
  simp [List.getD_eq_getElem?_getD, List.getElem?_set_ne h]

/-- Writing at an in-range position is read back. -/
theorem getD_set_self (l : List ℚ) (i : Nat) (a : ℚ) (h : i < l.length) :
    (l.set i a).getD i 0 = a := by
  simp [List.getD_eq_getElem?_getD, List.getElem?_set_self',
    List.getElem?_eq_getElem h]

/-- A region scatter leaves every slot outside the written cell list
unchanged. -/
theorem copyFromRegion_getD_of_not_mem {source : List ℚ} {cells : List Nat}
    {destination : List ℚ} {c : Nat} (h : c ∉ cells) :
    (copyFromRegion source cells destination).getD c 0 = destination.getD c 0 := by
  have key : ∀ (ps : List (Nat × ℚ)) (d : List ℚ), (∀ p ∈ ps, p.1 ≠ c) →
      (ps.foldl (fun d cs => d.set cs.1 cs.2) d).getD c 0 = d.getD c 0 := by
    intro ps
    induction ps with
    | nil => intro d _; rfl
    | cons p t ih =>
      intro d hp
      simp only [List.foldl_cons]
      rw [ih _ (fun q hq => hp q (List.mem_cons_of_mem p hq))]
      exact getD_set_ne _ _ _ _ (hp p (List.mem_cons_self p t))
  refine key _ _ ?_
  intro p hp
  exact fun he => h (he ▸ (List.of_mem_zip hp).1)

/-- A region scatter whose source values are all zero keeps a zero slot
zero. -/
theorem copyFromRegion_getD_zero {source : List ℚ} {cells : List Nat}
    {destination : List ℚ} {c : Nat}
    (hsrc : ∀ v ∈ source, v = 0) (hd : destination.getD c 0 = 0) :
    (copyFromRegion source cells destination).getD c 0 = 0 := by
  have key : ∀ (ps : List (Nat × ℚ)) (d : List ℚ), (∀ p ∈ ps, p.2 = 0) →
      d.getD c 0 = 0 →
      (ps.foldl (fun d cs => d.set cs.1 cs.2) d).getD c 0 = 0 := by
    intro ps
    induction ps with
    | nil => intro d _ hd0; exact hd0
    | cons p t ih =>
      intro d hp hd0
      simp only [List.foldl_cons]
      refine ih _ (fun q hq => hp q (List.mem_cons_of_mem p hq)) ?_
      have hp0 : p.2 = 0 := hp p (List.mem_cons_self p t)
      by_cases hc : p.1 = c
      · subst hc
        by_cases hlen : p.1 < d.length
        · rw [hp0, getD_set_self _ _ _ hlen]
        · rw [List.set_eq_of_length_le (Nat.le_of_not_lt hlen)]
          exact hd0
      · rw [getD_set_ne _ _ _ _ hc]
        exact hd0
  refine key _ _ ?_ hd
  intro p hp
  exact hsrc p.2 (List.of_mem_zip hp).2

/-- `computeRs` with the NoMixing strategy produces only zeros. -/
theorem computeRs_noMixing (satRs satRv : ℚ → ℚ → ℚ) (G : UnstructuredGrid)
    (cells : List Nat) (press temp satOther : List ℚ) :
    ∀ v ∈ computeRs satRs satRv G cells press temp .NoMixing satOther, v = 0 := by
  intro v hv
  simp only [computeRs, List.mem_map] at hv
  obtain ⟨k, _, hk⟩ := hv
  simpa [evalRsFunction] using hk.symm

/-- One region-loop iteration keeps a zero Rs/Rv slot of cell `c` (of region
`r`) zero, whether it is iteration `r` itself with NoMixing functions or any
other region's iteration (whose cell list cannot contain `c`). -/
theorem calcRegion_preserves_zero (props : Props) (ext : ExternalFns)
    (G : UnstructuredGrid) (swat : List ℚ) (rsf rvf : RsFunction)
    (a : Nat) (eqln : List Int) (st : ComputerState) (c r : Nat)
    (hc : c ∈ regionCells eqln (Int.ofNat r))
    (hcase : (a = r ∧ rsf = .NoMixing ∧ rvf = .NoMixing) ∨ a ≠ r)
    (hz1 : st.rs.getD c 0 = 0) (hz2 : st.rv.getD c 0 = 0) :
    (calcRegion props ext G swat rsf rvf a eqln st).rs.getD c 0 = 0
    ∧ (calcRegion props ext G swat rsf rvf a eqln st).rv.getD c 0 = 0 := by
  rw [calcRegion]
  by_cases hg : (props.phaseUsage.liquid_used && props.phaseUsage.vapour_used) = true
  · simp only [hg, if_true]
    rcases hcase with ⟨ha, hrs, hrv⟩ | hne
    · subst ha; subst hrs; subst hrv
      constructor
      · exact copyFromRegion_getD_zero (computeRs_noMixing _ _ _ _ _ _ _) hz1
      · exact copyFromRegion_getD_zero (computeRs_noMixing _ _ _ _ _ _ _) hz2
    · have hnot : c ∉ regionCells eqln (Int.ofNat a) := by
        intro hmem
        have h1 := (mem_regionCells.1 hmem).2
        have h2 := (mem_regionCells.1 hc).2
        exact hne (Int.ofNat.inj (h1.symm.trans h2))
      constructor
      · rw [copyFromRegion_getD_of_not_mem hnot]; exact hz1
      · rw [copyFromRegion_getD_of_not_mem hnot]; exact hz2
  · simp only [hg, if_false]
    exact ⟨hz1, hz2⟩

/-- C6: For every region whose selected miscibility functions are NoMixing
(for both Rs and Rv), the computed Rs value and Rv value are exactly zero for
every cell in that region, starting from the zero-initialized output
arrays. -/
theorem noMixing_rs_rv_zero (props : Props) (ext : ExternalFns)
    (G : UnstructuredGrid) (swat : List ℚ) (rsfs rvfs : List RsFunction)
    (eqln : List Int) (r c : Nat)
    (hrs : rsfs.getD r .NoMixing = .NoMixing)
    (hrv : rvfs.getD r .NoMixing = .NoMixing)
    (hc : c ∈ regionCells eqln (Int.ofNat r)) :
    (calcPressSatRsRv props ext G swat rsfs rvfs eqln
        (initialState0 props.numPhases G.number_of_cells)).rs.getD c 0 = 0
    ∧ (calcPressSatRsRv props ext G swat rsfs rvfs eqln
        (initialState0 props.numPhases G.number_of_cells)).rv.getD c 0 = 0 := by
  have key : ∀ (l : List Nat) (st : ComputerState),
      st.rs.getD c 0 = 0 → st.rv.getD c 0 = 0 →
      ((l.foldl (fun st a => calcRegion props ext G swat (rsfs.getD a .NoMixing)
          (rvfs.getD a .NoMixing) a eqln st) st).rs.getD c 0 = 0
      ∧ (l.foldl (fun st a => calcRegion props ext G swat (rsfs.getD a .NoMixing)
          (rvfs.getD a .NoMixing) a eqln st) st).rv.getD c 0 = 0) := by
    intro l
    induction l with
    | nil => intro st h1 h2; exact ⟨h1, h2⟩
    | cons a t ih =>
      intro st h1 h2
      simp only [List.foldl_cons]
      have hcase : (a = r ∧ rsfs.getD a .NoMixing = .NoMixing
          ∧ rvfs.getD a .NoMixing = .NoMixing) ∨ a ≠ r := by
        by_cases ha : a = r
        · exact Or.inl ⟨ha, ha ▸ hrs, ha ▸ hrv⟩
        · exact Or.inr ha
      have hstep := calcRegion_preserves_zero props ext G swat
        (rsfs.getD a .NoMixing) (rvfs.getD a .NoMixing) a eqln st c r hc hcase h1 h2
      exact ih _ hstep.1 hstep.2
  have h0 : (initialState0 props.numPhases G.number_of_cells).rs.getD c 0 = 0 := by
    simp [initialState0, List.getD_eq_getElem?_getD, List.getElem?_replicate]
    split <;> rfl
  have h0' : (initialState0 props.numPhases G.number_of_cells).rv.getD c 0 = 0 := by
    simp [initialState0, List.getD_eq_getElem?_getD, List.getElem?_replicate]
    split <;> rfl
  exact key _ _ h0 h0'

/-- Witness for `noMixing_rs_rv_zero`: one region, one cell, NoMixing for
both ratios, with both oil and gas active so the Rs/Rv branch runs. -/
theorem noMixing_rs_rv_zero_witness :
    (calcPressSatRsRv
        (Props.mk 3 (PhaseUsage.mk true true true 0 1 2) (fun p _ => p) (fun p _ => p))
        (ExternalFns.mk (fun _ cells => [cells.map (fun _ => 5), cells.map (fun _ => 6), cells.map (fun _ => 7)])
          (fun _ cells _ _ => [cells.map (fun _ => 1), cells.map (fun _ => 0), cells.map (fun _ => 0)]))
        (UnstructuredGrid.mk 1 none [0, 0, 0]) [] [RsFunction.NoMixing]
        [RsFunction.NoMixing] [0]
        (initialState0
          (Props.mk 3 (PhaseUsage.mk true true true 0 1 2) (fun p _ => p) (fun p _ => p)).numPhases
          (UnstructuredGrid.mk 1 none [0, 0, 0]).number_of_cells)).rs.getD 0 0 = 0
    ∧ (calcPressSatRsRv
        (Props.mk 3 (PhaseUsage.mk true true true 0 1 2) (fun p _ => p) (fun p _ => p))
        (ExternalFns.mk (fun _ cells => [cells.map (fun _ => 5), cells.map (fun _ => 6), cells.map (fun _ => 7)])
          (fun _ cells _ _ => [cells.map (fun _ => 1), cells.map (fun _ => 0), cells.map (fun _ => 0)]))
        (UnstructuredGrid.mk 1 none [0, 0, 0]) [] [RsFunction.NoMixing]
        [RsFunction.NoMixing] [0]
        (initialState0
          (Props.mk 3 (PhaseUsage.mk true true true 0 1 2) (fun p _ => p) (fun p _ => p)).numPhases
          (UnstructuredGrid.mk 1 none [0, 0, 0]).number_of_cells)).rv.getD 0 0 = 0 :=
  noMixing_rs_rv_zero
    (Props.mk 3 (PhaseUsage.mk true true true 0 1 2) (fun p _ => p) (fun p _ => p))
    (ExternalFns.mk (fun _ cells => [cells.map (fun _ => 5), cells.map (fun _ => 6), cells.map (fun _ => 7)])
      (fun _ cells _ _ => [cells.map (fun _ => 1), cells.map (fun _ => 0), cells.map (fun _ => 0)]))
    (UnstructuredGrid.mk 1 none [0, 0, 0]) [] [RsFunction.NoMixing]
    [RsFunction.NoMixing] [0] 0 0 rfl rfl (by decide)

/-- C3: For every region, if the dissolved-gas feature flag (DISGAS) is absent
the Rs miscibility function selected is NoMixing, and if the vaporized-oil
feature flag (VAPOIL) is absent the Rv miscibility function selected is
NoMixing — the two conditionals independent of each other, and in both cases
regardless of the record's table indices. -/
theorem noMixing_without_feature_flags (deck : Deck) (es : EclipseState)
    (eqln : List Int) (recs : List EquilRecord) :
    (deck.hasDISGAS = false →
      mkRsFuncs deck es eqln recs = .ok (recs.map fun _ => RsFunction.NoMixing))
    ∧ (deck.hasVAPOIL = false →
      mkRvFuncs deck es eqln recs = .ok (recs.map fun _ => RsFunction.NoMixing)) := by
  constructor
  · intro hd; simp [mkRsFuncs, hd]
  · intro hv; simp [mkRvFuncs, hv]

/-- Witness for `noMixing_without_feature_flags`, each conditional at its own
deck with only the one flag absent: a record with both table indices positive
(and tables available) still yields NoMixing on the side whose flag is
missing. -/
theorem noMixing_without_feature_flags_witness :
    mkRsFuncs (Deck.mk true [] false true false false)
      (EclipseState.mk [] [RsvdTable.mk [1] [10]] [RsvdTable.mk [1] [10]] []) [0]
      [EquilRecord.mk ⟨0, 0⟩ ⟨0, 0⟩ ⟨0, 0⟩ 1 1 0]
      = .ok ([EquilRecord.mk ⟨0, 0⟩ ⟨0, 0⟩ ⟨0, 0⟩ 1 1 0].map fun _ => RsFunction.NoMixing)
    ∧ mkRvFuncs (Deck.mk true [] true false false false)
      (EclipseState.mk [] [RsvdTable.mk [1] [10]] [RsvdTable.mk [1] [10]] []) [0]
      [EquilRecord.mk ⟨0, 0⟩ ⟨0, 0⟩ ⟨0, 0⟩ 1 1 0]
      = .ok ([EquilRecord.mk ⟨0, 0⟩ ⟨0, 0⟩ ⟨0, 0⟩ 1 1 0].map fun _ => RsFunction.NoMixing) :=
  ⟨(noMixing_without_feature_flags (Deck.mk true [] false true false false)
      (EclipseState.mk [] [RsvdTable.mk [1] [10]] [RsvdTable.mk [1] [10]] []) [0]
      [EquilRecord.mk ⟨0, 0⟩ ⟨0, 0⟩ ⟨0, 0⟩ 1 1 0]).1 rfl,
   (noMixing_without_feature_flags (Deck.mk true [] true false false false)
      (EclipseState.mk [] [RsvdTable.mk [1] [10]] [RsvdTable.mk [1] [10]] []) [0]
      [EquilRecord.mk ⟨0, 0⟩ ⟨0, 0⟩ ⟨0, 0⟩ 1 1 0]).2 rfl⟩

/-- C1 (failing input): with DISGAS enabled, one EQUIL record for region 0
carrying `live_oil_table_index = 2`, and two distinct RSVD tables available,
the selection builds the `RsVD` function from `rsvdTables[0]` — the REGION
index — with ratio column `[10]`, not from the table at 1-indexed position 2,
whose ratio column is `[20]`.  The availability check is nonetheless made
against the record's index 2 (initStateEquil.hpp:287 vs 290). -/
theorem rsvd_table_indexed_by_region :
    mkRsFuncs (Deck.mk true [] true false false false)
      (EclipseState.mk []
        [RsvdTable.mk [1] [10], RsvdTable.mk [2] [20]] [] [])
      [0]
      [EquilRecord.mk ⟨0, 0⟩ ⟨0, 0⟩ ⟨0, 0⟩ 2 0 0]
      = .ok [RsFunction.RsVD 0 [1] [10]]
    ∧ ((EclipseState.mk []
        [RsvdTable.mk [1] [10], RsvdTable.mk [2] [20]] [] []).rsvdTables.getD 1
          (RsvdTable.mk [] [])).ratioColumn = [20] := by
  constructor
  · rfl
  · rfl

/-- In the DISGAS loop, a record with non-positive live-oil table index at
position `i` (region `i0 + i` of the aux recursion) forces the
saturated-at-contact branch: unequal datum/gas-oil-contact depths abort, and
on success the function is `RsSatAtContact` at datum pressure and 293.15 K. -/
theorem mkRsFuncsGo_satContact (tables : List RsvdTable) (eqln : List Int)
    (recs : List EquilRecord) :
    ∀ (i0 i : Nat) (rec : EquilRecord),
      recs[i]? = some rec →
      rec.live_oil_table_index ≤ 0 →
      (rec.goc.depth ≠ rec.main.depth →
          ∃ msg, mkRsFuncsGo tables eqln recs i0 = .error msg)
       ∧ ∀ fs, mkRsFuncsGo tables eqln recs i0 = .ok fs →
           rec.goc.depth = rec.main.depth ∧
           fs[i]? = some (RsFunction.RsSatAtContact
             (firstCellOfRegion eqln (Int.ofNat (i0 + i)))
             rec.main.press (273.15 + 20)) := by
  induction recs with
  | nil => intro i0 i rec h _; simp at h
  | cons r rest ih =>
    intro i0 i rec hget hle
    cases i with
    | zero =>
      rw [List.getElem?_cons_zero] at hget
      injection hget with hget
      subst hget
      refine ⟨fun hne => ?_, fun fs hfs => ?_⟩
      · have h : mkRsFuncsGo tables eqln (r :: rest) i0 =
            .error ("Cannot initialise: when no explicit RSVD table is given, " ++
              "datum depth must be at the gas-oil-contact. In EQUIL region " ++
              toString (i0 + 1) ++ "  (counting from 1), this does not hold.") := by
          simp only [mkRsFuncsGo]
          rw [if_neg (by omega), if_pos hne]
        exact ⟨_, h⟩
      · simp only [mkRsFuncsGo] at hfs
        rw [if_neg (by omega)] at hfs
        by_cases hne : r.goc.depth ≠ r.main.depth
        · rw [if_pos hne] at hfs
          cases hfs
        · rw [if_neg hne] at hfs
          push_neg at hne
          refine ⟨hne, ?_⟩
          cases hrest : mkRsFuncsGo tables eqln rest (i0 + 1) with
          | error m => rw [hrest] at hfs; cases hfs
          | ok fs' =>
            rw [hrest] at hfs
            injection hfs with hfs
            subst hfs
            simp
    | succ i =>
      rw [List.getElem?_cons_succ] at hget
      have IH := ih (i0 + 1) i rec hget hle
      have harith : i0 + 1 + i = i0 + (i + 1) := by omega
      rw [harith] at IH
      refine ⟨fun hne => ?_, fun fs hfs => ?_⟩
      · obtain ⟨msg, hmsg⟩ := IH.1 hne
        simp only [mkRsFuncsGo]
        split
        · split
          · rw [hmsg]; exact ⟨msg, rfl⟩
          · exact ⟨_, rfl⟩
        · split
          · exact ⟨_, rfl⟩
          · rw [hmsg]; exact ⟨msg, rfl⟩
      · simp only [mkRsFuncsGo] at hfs
        split at hfs
        · split at hfs
          · cases hrest : mkRsFuncsGo tables eqln rest (i0 + 1) with
            | error m => rw [hrest] at hfs; cases hfs
            | ok fs' =>
              rw [hrest] at hfs
              injection hfs with hfs
              subst hfs
              have := IH.2 fs' hrest
              exact ⟨this.1, by simpa using this.2⟩
          · cases hfs
        · split at hfs
          · cases hfs
          · cases hrest : mkRsFuncsGo tables eqln rest (i0 + 1) with
            | error m => rw [hrest] at hfs; cases hfs
            | ok fs' =>
              rw [hrest] at hfs
              injection hfs with hfs
              subst hfs
              have := IH.2 fs' hrest
              exact ⟨this.1, by simpa using this.2⟩

/-- The VAPOIL-loop analogue of `mkRsFuncsGo_satContact`: the contact pressure
is `main.press + goc.press`. -/
theorem mkRvFuncsGo_satContact (tables : List RsvdTable) (eqln : List Int)
    (recs : List EquilRecord) :
    ∀ (i0 i : Nat) (rec : EquilRecord),
      recs[i]? = some rec →
      rec.wet_gas_table_index ≤ 0 →
      (rec.goc.depth ≠ rec.main.depth →
          ∃ msg, mkRvFuncsGo tables eqln recs i0 = .error msg)
       ∧ ∀ fs, mkRvFuncsGo tables eqln recs i0 = .ok fs →
           rec.goc.depth = rec.main.depth ∧
           fs[i]? = some (RsFunction.RvSatAtContact
             (firstCellOfRegion eqln (Int.ofNat (i0 + i)))
             (rec.main.press + rec.goc.press) (273.15 + 20)) := by
  induction recs with
  | nil => intro i0 i rec h _; simp at h
  | cons r rest ih =>
    intro i0 i rec hget hle
    cases i with
    | zero =>
      rw [List.getElem?_cons_zero] at hget
      injection hget with hget
      subst hget
      refine ⟨fun hne => ?_, fun fs hfs => ?_⟩
      · have h : mkRvFuncsGo tables eqln (r :: rest) i0 =
            .error ("Cannot initialise: when no explicit RVVD table is given, " ++
              "datum depth must be at the gas-oil-contact. In EQUIL region " ++
              toString (i0 + 1) ++ "  (counting from 1), this does not hold.") := by
          simp only [mkRvFuncsGo]
          rw [if_neg (by omega), if_pos hne]
        exact ⟨_, h⟩
      · simp only [mkRvFuncsGo] at hfs
        rw [if_neg (by omega)] at hfs
        by_cases hne : r.goc.depth ≠ r.main.depth
        · rw [if_pos hne] at hfs
          cases hfs
        · rw [if_neg hne] at hfs
          push_neg at hne
          refine ⟨hne, ?_⟩
          cases hrest : mkRvFuncsGo tables eqln rest (i0 + 1) with
          | error m => rw [hrest] at hfs; cases hfs
          | ok fs' =>
            rw [hrest] at hfs
            injection hfs with hfs
            subst hfs
            simp
    | succ i =>
      rw [List.getElem?_cons_succ] at hget
      have IH := ih (i0 + 1) i rec hget hle
      have harith : i0 + 1 + i = i0 + (i + 1) := by omega
      rw [harith] at IH
      refine ⟨fun hne => ?_, fun fs hfs => ?_⟩
      · obtain ⟨msg, hmsg⟩ := IH.1 hne
        simp only [mkRvFuncsGo]
        split
        · split
          · rw [hmsg]; exact ⟨msg, rfl⟩
          · exact ⟨_, rfl⟩
        · split
          · exact ⟨_, rfl⟩
          · rw [hmsg]; exact ⟨msg, rfl⟩
      · simp only [mkRvFuncsGo] at hfs
        split at hfs
        · split at hfs
          · cases hrest : mkRvFuncsGo tables eqln rest (i0 + 1) with
            | error m => rw [hrest] at hfs; cases hfs
            | ok fs' =>
              rw [hrest] at hfs
              injection hfs with hfs
              subst hfs
              have := IH.2 fs' hrest
              exact ⟨this.1, by simpa using this.2⟩
          · cases hfs
        · split at hfs
          · cases hfs
          · cases hrest : mkRvFuncsGo tables eqln rest (i0 + 1) with
            | error m => rw [hrest] at hfs; cases hfs
            | ok fs' =>
              rw [hrest] at hfs
              injection hfs with hfs
              subst hfs
              have := IH.2 fs' hrest
              exact ⟨this.1, by simpa using this.2⟩

/-- C4: For every region whose record has no positive table index (so the
saturated-at-contact miscibility branch is selected, with the corresponding
feature flag enabled), if the region's datum depth does not equal its
gas-oil-contact depth then initialization fails with a configuration error;
when they are equal, the function is anchored at a fixed contact pressure
(datum pressure for Rs; datum pressure plus gas-oil-contact capillary pressure
for Rv) and the fixed reference temperature 273.15 + 20 K. -/
theorem satAtContact_requires_datum_at_goc (deck : Deck) (es : EclipseState)
    (eqln : List Int) (recs : List EquilRecord) (i : Nat) (rec : EquilRecord)
    (hget : recs[i]? = some rec) :
    (deck.hasDISGAS = true → rec.live_oil_table_index ≤ 0 →
      ((rec.goc.depth ≠ rec.main.depth →
          ∃ msg, mkRsFuncs deck es eqln recs = .error msg)
       ∧ ∀ fs, mkRsFuncs deck es eqln recs = .ok fs →
           rec.goc.depth = rec.main.depth ∧
           fs[i]? = some (RsFunction.RsSatAtContact
             (firstCellOfRegion eqln (Int.ofNat i)) rec.main.press (273.15 + 20))))
    ∧ (deck.hasVAPOIL = true → rec.wet_gas_table_index ≤ 0 →
      ((rec.goc.depth ≠ rec.main.depth →
          ∃ msg, mkRvFuncs deck es eqln recs = .error msg)
       ∧ ∀ fs, mkRvFuncs deck es eqln recs = .ok fs →
           rec.goc.depth = rec.main.depth ∧
           fs[i]? = some (RsFunction.RvSatAtContact
             (firstCellOfRegion eqln (Int.ofNat i))
             (rec.main.press + rec.goc.press) (273.15 + 20)))) := by
  constructor
  · intro hd hle
    have h := mkRsFuncsGo_satContact es.rsvdTables eqln recs 0 i rec hget hle
    simpa [mkRsFuncs, hd] using h
  · intro hv hle
    have h := mkRvFuncsGo_satContact es.rvvdTables eqln recs 0 i rec hget hle
    simpa [mkRvFuncs, hv] using h

/-- Witness for `satAtContact_requires_datum_at_goc` at a concrete input with
equal datum and gas-oil-contact depths. -/
theorem satAtContact_requires_datum_at_goc_witness :
    ((Deck.mk true [] true true false false).hasDISGAS = true →
      (EquilRecord.mk ⟨5, 100⟩ ⟨0, 0⟩ ⟨5, 3⟩ 0 0 0).live_oil_table_index ≤ 0 →
      (((EquilRecord.mk ⟨5, 100⟩ ⟨0, 0⟩ ⟨5, 3⟩ 0 0 0).goc.depth ≠
          (EquilRecord.mk ⟨5, 100⟩ ⟨0, 0⟩ ⟨5, 3⟩ 0 0 0).main.depth →
          ∃ msg, mkRsFuncs (Deck.mk true [] true true false false)
            (EclipseState.mk [] [] [] []) [0]
            [EquilRecord.mk ⟨5, 100⟩ ⟨0, 0⟩ ⟨5, 3⟩ 0 0 0] = .error msg)
       ∧ ∀ fs, mkRsFuncs (Deck.mk true [] true true false false)
            (EclipseState.mk [] [] [] []) [0]
            [EquilRecord.mk ⟨5, 100⟩ ⟨0, 0⟩ ⟨5, 3⟩ 0 0 0] = .ok fs →
           (EquilRecord.mk ⟨5, 100⟩ ⟨0, 0⟩ ⟨5, 3⟩ 0 0 0).goc.depth =
             (EquilRecord.mk ⟨5, 100⟩ ⟨0, 0⟩ ⟨5, 3⟩ 0 0 0).main.depth ∧
           fs[0]? = some (RsFunction.RsSatAtContact
             (firstCellOfRegion [0] (Int.ofNat 0))
             (EquilRecord.mk ⟨5, 100⟩ ⟨0, 0⟩ ⟨5, 3⟩ 0 0 0).main.press (273.15 + 20))))
    ∧ ((Deck.mk true [] true true false false).hasVAPOIL = true →
      (EquilRecord.mk ⟨5, 100⟩ ⟨0, 0⟩ ⟨5, 3⟩ 0 0 0).wet_gas_table_index ≤ 0 →
      (((EquilRecord.mk ⟨5, 100⟩ ⟨0, 0⟩ ⟨5, 3⟩ 0 0 0).goc.depth ≠
          (EquilRecord.mk ⟨5, 100⟩ ⟨0, 0⟩ ⟨5, 3⟩ 0 0 0).main.depth →
          ∃ msg, mkRvFuncs (Deck.mk true [] true true false false)
            (EclipseState.mk [] [] [] []) [0]
            [EquilRecord.mk ⟨5, 100⟩ ⟨0, 0⟩ ⟨5, 3⟩ 0 0 0] = .error msg)
       ∧ ∀ fs, mkRvFuncs (Deck.mk true [] true true false false)
            (EclipseState.mk [] [] [] []) [0]
            [EquilRecord.mk ⟨5, 100⟩ ⟨0, 0⟩ ⟨5, 3⟩ 0 0 0] = .ok fs →
           (EquilRecord.mk ⟨5, 100⟩ ⟨0, 0⟩ ⟨5, 3⟩ 0 0 0).goc.depth =
             (EquilRecord.mk ⟨5, 100⟩ ⟨0, 0⟩ ⟨5, 3⟩ 0 0 0).main.depth ∧
           fs[0]? = some (RsFunction.RvSatAtContact
             (firstCellOfRegion [0] (Int.ofNat 0))
             ((EquilRecord.mk ⟨5, 100⟩ ⟨0, 0⟩ ⟨5, 3⟩ 0 0 0).main.press +
               (EquilRecord.mk ⟨5, 100⟩ ⟨0, 0⟩ ⟨5, 3⟩ 0 0 0).goc.press)
             (273.15 + 20)))) :=
  satAtContact_requires_datum_at_goc (Deck.mk true [] true true false false)
    (EclipseState.mk [] [] [] []) [0]
    [EquilRecord.mk ⟨5, 100⟩ ⟨0, 0⟩ ⟨5, 3⟩ 0 0 0] 0
    (EquilRecord.mk ⟨5, 100⟩ ⟨0, 0⟩ ⟨5, 3⟩ 0 0 0) rfl

/-- Witness for `equilnum_spec` at a concrete input. -/
theorem equilnum_spec_witness :
    ((Deck.mk true [] false false true false).hasEQLNUM = true →
      (equilnum (Deck.mk true [] false false true false)
        (EclipseState.mk [3, 7] [] [] []) (UnstructuredGrid.mk 2 none [])).getD 1 0 =
        (EclipseState.mk [3, 7] [] [] []).eqlnumData.getD
          (match (UnstructuredGrid.mk 2 none []).global_cell with
           | none => 1
           | some gc => gc.getD 1 0) 0 - 1)
    ∧ ((Deck.mk true [] false false true false).hasEQLNUM = false →
      (equilnum (Deck.mk true [] false false true false)
        (EclipseState.mk [3, 7] [] [] []) (UnstructuredGrid.mk 2 none [])).getD 1 0 = 0) :=
  equilnum_spec (Deck.mk true [] false false true false)
    (EclipseState.mk [3, 7] [] [] []) (UnstructuredGrid.mk 2 none []) 1 (by decide)

/-- C7: When the oil phase and the gas phase are not both active in the
phase-usage configuration, the Rs array and the Rv array are never written by
any region's computation — they keep their initial values (the default zeros
of the member initializers) — while the phase pressures and saturations are
still computed and scattered for the active phases. -/
theorem rs_rv_frame_without_both_phases (props : Props) (ext : ExternalFns)
    (G : UnstructuredGrid) (swat : List ℚ) (rsfs rvfs : List RsFunction)
    (eqln : List Int) (st0 : ComputerState)
    (h : (props.phaseUsage.liquid_used && props.phaseUsage.vapour_used) = false) :
    (calcPressSatRsRv props ext G swat rsfs rvfs eqln st0).rs = st0.rs
    ∧ (calcPressSatRsRv props ext G swat rsfs rvfs eqln st0).rv = st0.rv
    ∧ (calcPressSatRsRv props ext G swat rsfs rvfs eqln st0).pp
        = (pressSatScatter props ext swat eqln st0.pp st0.sat).1
    ∧ (calcPressSatRsRv props ext G swat rsfs rvfs eqln st0).sat
        = (pressSatScatter props ext swat eqln st0.pp st0.sat).2 := by
  have key : ∀ (l : List Nat) (st : ComputerState),
      (l.foldl (fun st a => calcRegion props ext G swat (rsfs.getD a .NoMixing)
          (rvfs.getD a .NoMixing) a eqln st) st).rs = st.rs
      ∧ (l.foldl (fun st a => calcRegion props ext G swat (rsfs.getD a .NoMixing)
          (rvfs.getD a .NoMixing) a eqln st) st).rv = st.rv
      ∧ (l.foldl (fun st a => calcRegion props ext G swat (rsfs.getD a .NoMixing)
          (rvfs.getD a .NoMixing) a eqln st) st).pp
          = (l.foldl (fun ps r =>
              (scatterPhases props.numPhases
                (ext.phasePressures r (regionCells eqln (Int.ofNat r)))
                (regionCells eqln (Int.ofNat r)) ps.1,
               scatterPhases props.numPhases
                (ext.phaseSaturations r (regionCells eqln (Int.ofNat r)) swat
                  (ext.phasePressures r (regionCells eqln (Int.ofNat r))))
                (regionCells eqln (Int.ofNat r)) ps.2))
              (st.pp, st.sat)).1
      ∧ (l.foldl (fun st a => calcRegion props ext G swat (rsfs.getD a .NoMixing)
          (rvfs.getD a .NoMixing) a eqln st) st).sat
          = (l.foldl (fun ps r =>
              (scatterPhases props.numPhases
                (ext.phasePressures r (regionCells eqln (Int.ofNat r)))
                (regionCells eqln (Int.ofNat r)) ps.1,
               scatterPhases props.numPhases
                (ext.phaseSaturations r (regionCells eqln (Int.ofNat r)) swat
                  (ext.phasePressures r (regionCells eqln (Int.ofNat r))))
                (regionCells eqln (Int.ofNat r)) ps.2))
              (st.pp, st.sat)).2 := by
    intro l
    induction l with
    | nil => intro st; exact ⟨rfl, rfl, rfl, rfl⟩
    | cons a t ih =>
      intro st
      simp only [List.foldl_cons]
      have hstep : calcRegion props ext G swat (rsfs.getD a .NoMixing)
          (rvfs.getD a .NoMixing) a eqln st =
          ComputerState.mk
            (scatterPhases props.numPhases
              (ext.phasePressures a (regionCells eqln (Int.ofNat a)))
              (regionCells eqln (Int.ofNat a)) st.pp)
            (scatterPhases props.numPhases
              (ext.phaseSaturations a (regionCells eqln (Int.ofNat a)) swat
                (ext.phasePressures a (regionCells eqln (Int.ofNat a))))
              (regionCells eqln (Int.ofNat a)) st.sat)
            st.rs st.rv := by
        simp [calcRegion, h]
      rw [hstep]
      exact ih _
  have hk := key (List.range (numRegions eqln)) st0
  simpa only [calcPressSatRsRv, pressSatScatter] using hk

/-- Witness for `rs_rv_frame_without_both_phases`: oil active, gas inactive. -/
theorem rs_rv_frame_without_both_phases_witness :
    (calcPressSatRsRv
        (Props.mk 2 (PhaseUsage.mk true true false 0 1 0) (fun _ _ => 0) (fun _ _ => 0))
        (ExternalFns.mk (fun _ _ => [[3], [4]]) (fun _ _ _ _ => [[1], [0]]))
        (UnstructuredGrid.mk 1 none [0, 0, 0]) [] [] [] [0]
        (initialState0 2 1)).rs = (initialState0 2 1).rs
    ∧ (calcPressSatRsRv
        (Props.mk 2 (PhaseUsage.mk true true false 0 1 0) (fun _ _ => 0) (fun _ _ => 0))
        (ExternalFns.mk (fun _ _ => [[3], [4]]) (fun _ _ _ _ => [[1], [0]]))
        (UnstructuredGrid.mk 1 none [0, 0, 0]) [] [] [] [0]
        (initialState0 2 1)).rv = (initialState0 2 1).rv
    ∧ (calcPressSatRsRv
        (Props.mk 2 (PhaseUsage.mk true true false 0 1 0) (fun _ _ => 0) (fun _ _ => 0))
        (ExternalFns.mk (fun _ _ => [[3], [4]]) (fun _ _ _ _ => [[1], [0]]))
        (UnstructuredGrid.mk 1 none [0, 0, 0]) [] [] [] [0]
        (initialState0 2 1)).pp
        = (pressSatScatter
            (Props.mk 2 (PhaseUsage.mk true true false 0 1 0) (fun _ _ => 0) (fun _ _ => 0))
            (ExternalFns.mk (fun _ _ => [[3], [4]]) (fun _ _ _ _ => [[1], [0]]))
            [] [0] (initialState0 2 1).pp (initialState0 2 1).sat).1
    ∧ (calcPressSatRsRv
        (Props.mk 2 (PhaseUsage.mk true true false 0 1 0) (fun _ _ => 0) (fun _ _ => 0))
        (ExternalFns.mk (fun _ _ => [[3], [4]]) (fun _ _ _ _ => [[1], [0]]))
        (UnstructuredGrid.mk 1 none [0, 0, 0]) [] [] [] [0]
        (initialState0 2 1)).sat
        = (pressSatScatter
            (Props.mk 2 (PhaseUsage.mk true true false 0 1 0) (fun _ _ => 0) (fun _ _ => 0))
            (ExternalFns.mk (fun _ _ => [[3], [4]]) (fun _ _ _ _ => [[1], [0]]))
            [] [0] (initialState0 2 1).pp (initialState0 2 1).sat).2 :=
  rs_rv_frame_without_both_phases
    (Props.mk 2 (PhaseUsage.mk true true false 0 1 0) (fun _ _ => 0) (fun _ _ => 0))
    (ExternalFns.mk (fun _ _ => [[3], [4]]) (fun _ _ _ _ => [[1], [0]]))
    (UnstructuredGrid.mk 1 none [0, 0, 0]) [] [] [] [0]
    (initialState0 2 1) rfl

/-- C8: For every cell, after the saturation solver runs, the water, oil and
gas saturations sum to exactly 1, oil saturation being computed as the
complement `1 − Sw − Sg` rather than independently, and the water and gas
saturations lie within their phases' tabulated capillary-pressure domains
(inversion results outside the range are clamped to the nearest boundary);
the oil saturation has no tabulated curve of its own and is constrained only
through the complement. -/
theorem phaseSaturationsCell_spec (wt gt : PcCurve) (pw po pg : ℚ)
    (hw : wt.sMin ≤ wt.sMax) (hg : gt.sMin ≤ gt.sMax) :
    (phaseSaturationsCell wt gt pw po pg).1
      + (phaseSaturationsCell wt gt pw po pg).2.1
      + (phaseSaturationsCell wt gt pw po pg).2.2 = 1
    ∧ (phaseSaturationsCell wt gt pw po pg).2.1
      = 1 - (phaseSaturationsCell wt gt pw po pg).1
        - (phaseSaturationsCell wt gt pw po pg).2.2
    ∧ wt.sMin ≤ (phaseSaturationsCell wt gt pw po pg).1
    ∧ (phaseSaturationsCell wt gt pw po pg).1 ≤ wt.sMax
    ∧ gt.sMin ≤ (phaseSaturationsCell wt gt pw po pg).2.2
    ∧ (phaseSaturationsCell wt gt pw po pg).2.2 ≤ gt.sMax := by
  simp only [phaseSaturationsCell, waterSatFromPc, gasSatFromPc, clampSat]
  exact ⟨by ring, trivial, le_max_left _ _, max_le hw (min_le_left _ _),
    le_max_left _ _, max_le hg (min_le_left _ _)⟩

/-- Witness for `phaseSaturationsCell_spec` at a concrete cell. -/
theorem phaseSaturationsCell_spec_witness :
    (phaseSaturationsCell (PcCurve.mk 0 1 (fun x => x)) (PcCurve.mk 0 1 (fun x => x)) 2 5 9).1
      + (phaseSaturationsCell (PcCurve.mk 0 1 (fun x => x)) (PcCurve.mk 0 1 (fun x => x)) 2 5 9).2.1
      + (phaseSaturationsCell (PcCurve.mk 0 1 (fun x => x)) (PcCurve.mk 0 1 (fun x => x)) 2 5 9).2.2 = 1
    ∧ (phaseSaturationsCell (PcCurve.mk 0 1 (fun x => x)) (PcCurve.mk 0 1 (fun x => x)) 2 5 9).2.1
      = 1 - (phaseSaturationsCell (PcCurve.mk 0 1 (fun x => x)) (PcCurve.mk 0 1 (fun x => x)) 2 5 9).1
        - (phaseSaturationsCell (PcCurve.mk 0 1 (fun x => x)) (PcCurve.mk 0 1 (fun x => x)) 2 5 9).2.2
    ∧ (PcCurve.mk (0:ℚ) 1 (fun x => x)).sMin
      ≤ (phaseSaturationsCell (PcCurve.mk 0 1 (fun x => x)) (PcCurve.mk 0 1 (fun x => x)) 2 5 9).1
    ∧ (phaseSaturationsCell (PcCurve.mk 0 1 (fun x => x)) (PcCurve.mk 0 1 (fun x => x)) 2 5 9).1
      ≤ (PcCurve.mk (0:ℚ) 1 (fun x => x)).sMax
    ∧ (PcCurve.mk (0:ℚ) 1 (fun x => x)).sMin
      ≤ (phaseSaturationsCell (PcCurve.mk 0 1 (fun x => x)) (PcCurve.mk 0 1 (fun x => x)) 2 5 9).2.2
    ∧ (phaseSaturationsCell (PcCurve.mk 0 1 (fun x => x)) (PcCurve.mk 0 1 (fun x => x)) 2 5 9).2.2
      ≤ (PcCurve.mk (0:ℚ) 1 (fun x => x)).sMax :=
  phaseSaturationsCell_spec (PcCurve.mk 0 1 (fun x => x)) (PcCurve.mk 0 1 (fun x => x))
    2 5 9 (by norm_num) (by norm_num)

/-- C9: After a successful `PvtPropertiesIncompFromDeck::init`, the
surface-density slot at the water (Aqua) phase position holds the DENSITY
keyword's OIL item and the slot at the oil (Liquid) phase position holds the
WATER item, and each reservoir density equals the surface density in the same
slot divided by that phase's volume factor (PVTW's WATER_VOL_FACTOR for the
water slot, PVCDO's OIL_VOL_FACTOR for the oil slot).  That the two phase
positions are distinct members of `{0, 1}` is a guarantee of the external
`phaseUsageFromDeck`. -/
theorem pvtInit_density_slots (deck : PvtDeck) (st : PvtState)
    (dr : DensityRecord) (w : PvtwRecord) (o : PvcdoRecord)
    (hd : deck.density = some dr) (hw : deck.pvtw = some w)
    (ho : deck.pvcdo = some o)
    (ha : deck.phaseUsage.aqua_pos < 2) (hl : deck.phaseUsage.liquid_pos < 2)
    (hne : deck.phaseUsage.aqua_pos ≠ deck.phaseUsage.liquid_pos)
    (hok : pvtInit deck = .ok st) :
    st.surface_density.getD deck.phaseUsage.aqua_pos 0 = dr.oil
    ∧ st.surface_density.getD deck.phaseUsage.liquid_pos 0 = dr.water
    ∧ st.reservoir_density.getD deck.phaseUsage.aqua_pos 0
        = st.surface_density.getD deck.phaseUsage.aqua_pos 0 / w.water_vol_factor
    ∧ st.reservoir_density.getD deck.phaseUsage.liquid_pos 0
        = st.surface_density.getD deck.phaseUsage.liquid_pos 0 / o.oil_vol_factor := by
  rw [pvtInit, hd, hw, ho] at hok
  by_cases hg : (deck.phaseUsage.vapour_used || !deck.phaseUsage.aqua_used
      || !deck.phaseUsage.liquid_used) = true
  · rw [if_pos hg] at hok
    cases hok
  · rw [if_neg hg] at hok
    injection hok with hok
    subst hok
    have hpos : (deck.phaseUsage.aqua_pos = 0 ∧ deck.phaseUsage.liquid_pos = 1)
        ∨ (deck.phaseUsage.aqua_pos = 1 ∧ deck.phaseUsage.liquid_pos = 0) := by
      omega
    rcases hpos with ⟨h0, h1⟩ | ⟨h0, h1⟩ <;>
      simp [h0, h1, List.set, List.getD]

/-- Witness for `pvtInit_density_slots` at a concrete successful deck. -/
theorem pvtInit_density_slots_witness :
    (PvtState.mk [2, 3] [1, 3/5] [7, 9]).surface_density.getD
        (PhaseUsage.mk true true false 0 1 0).aqua_pos 0 = (DensityRecord.mk 2 3 4).oil
    ∧ (PvtState.mk [2, 3] [1, 3/5] [7, 9]).surface_density.getD
        (PhaseUsage.mk true true false 0 1 0).liquid_pos 0 = (DensityRecord.mk 2 3 4).water
    ∧ (PvtState.mk [2, 3] [1, 3/5] [7, 9]).reservoir_density.getD
        (PhaseUsage.mk true true false 0 1 0).aqua_pos 0
        = (PvtState.mk [2, 3] [1, 3/5] [7, 9]).surface_density.getD
            (PhaseUsage.mk true true false 0 1 0).aqua_pos 0
          / (PvtwRecord.mk 0 0 2 7).water_vol_factor
    ∧ (PvtState.mk [2, 3] [1, 3/5] [7, 9]).reservoir_density.getD
        (PhaseUsage.mk true true false 0 1 0).liquid_pos 0
        = (PvtState.mk [2, 3] [1, 3/5] [7, 9]).surface_density.getD
            (PhaseUsage.mk true true false 0 1 0).liquid_pos 0
          / (PvcdoRecord.mk 0 0 5 9).oil_vol_factor :=
  pvtInit_density_slots
    (PvtDeck.mk (PhaseUsage.mk true true false 0 1 0)
      (some (DensityRecord.mk 2 3 4)) (some (PvtwRecord.mk 0 0 2 7))
      (some (PvcdoRecord.mk 0 0 5 9)))
    (PvtState.mk [2, 3] [1, 3/5] [7, 9])
    (DensityRecord.mk 2 3 4) (PvtwRecord.mk 0 0 2 7) (PvcdoRecord.mk 0 0 5 9)
    rfl rfl rfl (by decide) (by decide) (by decide)
    (by norm_num [pvtInit, List.set, List.getD])

/-- C10: `PvtPropertiesIncompFromDeck::init` throws a runtime error — whose
text speaks of requiring "gas and oil" phases — whenever the deck's phase
usage is not exactly water plus oil (the gas phase used, or the water phase
or the oil phase not used); the `Except.error` result carries no `PvtState`,
so densities and viscosities stay unassigned.  `numPhases()` always returns
2. -/
theorem pvtInit_rejects_non_water_oil (deck : PvtDeck)
    (h : deck.phaseUsage.vapour_used = true ∨ deck.phaseUsage.aqua_used = false
      ∨ deck.phaseUsage.liquid_used = false) :
    pvtInit deck = .error
      "PvtPropertiesIncompFromDeck::init() -- must have gas and oil phases (only) in deck input.\n"
    ∧ pvtNumPhases = 2 := by
  refine ⟨?_, rfl⟩
  have hb : (deck.phaseUsage.vapour_used || !deck.phaseUsage.aqua_used
      || !deck.phaseUsage.liquid_used) = true := by
    rcases h with h | h | h <;> simp [h]
  rw [pvtInit, if_pos hb]

/-- Witness for `pvtInit_rejects_non_water_oil`: a three-phase deck. -/
theorem pvtInit_rejects_non_water_oil_witness :
    pvtInit (PvtDeck.mk (PhaseUsage.mk true true true 0 1 2) none none none)
      = .error
      "PvtPropertiesIncompFromDeck::init() -- must have gas and oil phases (only) in deck input.\n"
    ∧ pvtNumPhases = 2 :=
  pvtInit_rejects_non_water_oil
    (PvtDeck.mk (PhaseUsage.mk true true true 0 1 2) none none none)
    (Or.inl rfl)

end OpmEquil
